import Mathlib

/-!
Shallow embedding of `src/lib/apigw_lambda_integration_rest_construct.py`.

The construct `ApiLambdaIntegationRestConstruct.__init__` is a straight-line
Python program: it reads a configuration bundle (a `dict`) fetched from the
CDK context store and issues an ordered sequence of declarative
resource-creation calls against the provisioning backend (CDK constructs:
`LogGroup`, `RestApi`, `add_model`, `LambdaIntegration`, `add_resource`,
`add_method`, `add_cors_preflight`, `add_api_key`, `add_usage_plan`,
`add_api_stage`, `CfnOutput`).

We model the program as a function producing the ordered trace of backend
calls (each call an `Event` recording the arguments actually passed in the
source) together with either the final construct state or the error that
aborted it.  Python evaluation order is preserved exactly: each `gw["key"]`
subscript is a lookup that raises `KeyError` when the key is absent
(modelled as `ProvisionError.keyError`), argument expressions are evaluated
left-to-right before the backend call they feed, and
`dict(self.node.try_get_context(gw_context))` fails when the context key is
absent (modelled as `ProvisionError.contextMissing`).
-/

namespace ApiGw

/-- A value stored in the configuration bundle: the bundle mixes strings
(names, descriptions, enum selectors) and numbers (throttle rate, burst). -/
inductive CfgVal where
  | str : String → CfgVal
  | num : Nat → CfgVal
deriving DecidableEq

/-- The configuration bundle `gw = dict(...)`: a finite map from string keys
to values, modelled as an association list with first-match lookup. -/
abbrev Config := List (String × CfgVal)

/-- Dictionary lookup, first match wins (a Python dict has unique keys). -/
def Config.find : Config → String → Option CfgVal
  | [], _ => none
  | (k, v) :: rest, key => if k = key then some v else Config.find rest key

/-- Errors aborting `__init__`: the context key being absent
(`dict(None)` raises `TypeError` in the source; the spec calls every
config-load failure a `ConfigurationError`), a missing bundle entry
(Python `KeyError`), and string concatenation applied to a non-string
(Python `TypeError` on `"/aws/apigateway/" + gw[...]`). -/
inductive ProvisionError where
  | contextMissing : ProvisionError
  | keyError : String → ProvisionError
  | typeError : ProvisionError
deriving DecidableEq

/-- `aws_apigateway.MethodLoggingLevel` (only the two members the source names). -/
inductive MethodLoggingLevel where
  | INFO : MethodLoggingLevel
  | ERROR : MethodLoggingLevel
deriving DecidableEq

/-- `aws_logs.RetentionDays` (only the member the source uses). -/
inductive RetentionDays where
  | ONE_WEEK : RetentionDays
deriving DecidableEq

/-- `core.RemovalPolicy` (only the member the source uses). -/
inductive RemovalPolicy where
  | DESTROY : RemovalPolicy
deriving DecidableEq

/-- `aws_apigateway.EndpointType` (the two members the source uses). -/
inductive EndpointType where
  | REGIONAL : EndpointType
  | EDGE : EndpointType
deriving DecidableEq

/-- `aws_apigateway.PassthroughBehavior` (the three members the source uses). -/
inductive PassthroughBehavior where
  | WHEN_NO_TEMPLATES : PassthroughBehavior
  | WHEN_NO_MATCH : PassthroughBehavior
  | NEVER : PassthroughBehavior
deriving DecidableEq

/-- `aws_apigateway.JsonSchemaVersion` (only DRAFT4 is used). -/
inductive JsonSchemaVersion where
  | DRAFT4 : JsonSchemaVersion
deriving DecidableEq

/-- `aws_apigateway.JsonSchemaType` (the two members the source uses). -/
inductive JsonSchemaType where
  | OBJECT : JsonSchemaType
  | STRING : JsonSchemaType
deriving DecidableEq

/-- The keyword arguments of
`AccessLogFormat.json_with_standard_fields(...)` as passed in the source. -/
structure AccessLogFormatFields where
  caller : Bool
  http_method : Bool
  ip : Bool
  protocol : Bool
  request_time : Bool
  resource_path : Bool
  response_length : Bool
  status : Bool
  user : Bool
deriving DecidableEq

/-- The `deploy_options` dictionary passed to `RestApi`;
`access_log_destination` records the log-group name the
`LogGroupLogDestination` wraps. -/
structure StageOptions where
  description : CfgVal
  logging_level : MethodLoggingLevel
  tracing_enabled : Bool
  stage_name : String
  access_log_destination : String
  access_log_format : AccessLogFormatFields
  metrics_enabled : Bool
deriving DecidableEq

/-- The `schema` dictionary passed to `gateway.add_model`. -/
structure JsonSchema where
  schema : JsonSchemaVersion
  title : CfgVal
  type : JsonSchemaType
  properties : List (String × JsonSchemaType)
deriving DecidableEq

/-- One `MethodResponse(...)` entry: status code and the
`response_models` map from content type to the referenced model's
`model_name`. -/
structure MethodResponse where
  status_code : String
  response_models : List (String × CfgVal)
deriving DecidableEq

/-- A `throttle` dictionary: rate and burst limits taken verbatim from the
bundle (no conversion, no validation in the source). -/
structure ThrottleSettings where
  rate_limit : CfgVal
  burst_limit : CfgVal
deriving DecidableEq

/-- Reference to the method object created by `add_method`, identified by
the HTTP method value it was created with. -/
structure MethodRef where
  http_method : CfgVal
deriving DecidableEq

/-- One entry of the `throttle` list passed to `add_api_stage`. -/
structure ThrottlingPerMethod where
  method : MethodRef
  throttle : ThrottleSettings
deriving DecidableEq

/-- One backend resource-creation call, in source order, recording the
arguments the source passes. -/
inductive Event where
  | logGroup (id : CfgVal) (log_group_name : String)
      (retention : RetentionDays) (removal_policy : RemovalPolicy) : Event
  | restApi (id : CfgVal) (rest_api_name : CfgVal)
      (deploy_options : StageOptions) (endpoint_types : List EndpointType)
      (deploy : Bool) (cloud_watch_role : Bool) (description : CfgVal) : Event
  | addModel (id : CfgVal) (content_type : String) (model_name : CfgVal)
      (schema : JsonSchema) : Event
  | lambdaIntegration (handler : String) (proxy : Bool)
      (passthrough_behavior : PassthroughBehavior) : Event
  | addResource (path_part : CfgVal) : Event
  | addMethod (http_method : CfgVal) (api_key_required : Bool)
      (method_responses : List MethodResponse) : Event
  | addCorsPreflight (allow_origins : List CfgVal)
      (allow_methods : List CfgVal) : Event
  | addApiKey (id : CfgVal) (api_key_name : CfgVal) : Event
  | addUsagePlan (id : CfgVal) (name : CfgVal) (api_key : CfgVal)
      (throttle : ThrottleSettings) : Event
  | addApiStage (stage_name : String)
      (throttle : List ThrottlingPerMethod) : Event
  | cfnOutput (id : String) (value : String) : Event
deriving DecidableEq

/-- Render a configuration value as a string (used only to form the
backend-assigned URL token below). -/
def CfgVal.asString : CfgVal → String
  | .str s => s
  | .num n => toString n

/-- The backend-assigned invocation URL attribute `gateway.url`.  The real
value is a deploy-time token generated by the cloud backend; we model it as
an abstract but concrete function of the gateway's name.  The source never
inspects it, only forwards it to `CfnOutput`. -/
def restApiUrl (name : CfgVal) : String :=
  "https://" ++ name.asString ++ ".execute-api.amazonaws.com/"

/-- The created gateway object as the construct sees it: the source keeps it
in the local `gateway`, stores it in `self.apigw`, and reads `gateway.url`. -/
structure RestApiObj where
  rest_api_name : CfgVal
  url : String
deriving DecidableEq

/-- The construct's state after a successful `__init__`: the only attribute
the source stores is `self.apigw = gateway`. -/
structure ConstructResult where
  apigw : RestApiObj
deriving DecidableEq

/-- `LOG_INFO = MethodLoggingLevel.INFO` (module-level constant). -/
def LOG_INFO : MethodLoggingLevel := MethodLoggingLevel.INFO

/-- `LOG_ERROR = MethodLoggingLevel.ERROR` (module-level constant, unused). -/
def LOG_ERROR : MethodLoggingLevel := MethodLoggingLevel.ERROR

/-- `LOG_RETENTION_PERIOD = _logs.RetentionDays.ONE_WEEK`. -/
def LOG_RETENTION_PERIOD : RetentionDays := RetentionDays.ONE_WEEK

/-- The exact keyword arguments of
`AccessLogFormat.json_with_standard_fields` in the source: `caller=False`,
every other field `True`. -/
def jsonWithStandardFields : AccessLogFormatFields where
  caller := false
  http_method := true
  ip := true
  protocol := true
  request_time := true
  resource_path := true
  response_length := true
  status := true
  user := true

/-- Python `==` between a bundle value and a string literal: true exactly
when the value is that string (comparing a number to a string is `False`). -/
def cfgEq : CfgVal → String → Bool
  | .str s, t => s == t
  | .num _, _ => false

/-- The inline conditional selecting the endpoint type:
`EndpointType.REGIONAL if gw["gw_endpoint_type"] == "regional" else
EndpointType.EDGE`. -/
def resolveEndpointType (v : CfgVal) : EndpointType :=
  if cfgEq v "regional" then EndpointType.REGIONAL else EndpointType.EDGE

/-- The chained conditional resolving the passthrough behavior:
`PassthroughBehavior.WHEN_NO_TEMPLATES if pass_context == "WHEN_NO_TEMPLATES"
else PassthroughBehavior.WHEN_NO_MATCH if pass_context == "WHEN_NO_MATCH"
else PassthroughBehavior.NEVER`. -/
def resolvePassthrough (pass_context : CfgVal) : PassthroughBehavior :=
  if cfgEq pass_context "WHEN_NO_TEMPLATES" then PassthroughBehavior.WHEN_NO_TEMPLATES
  else if cfgEq pass_context "WHEN_NO_MATCH" then PassthroughBehavior.WHEN_NO_MATCH
  else PassthroughBehavior.NEVER

/-- Result of running `__init__`: the ordered trace of backend calls made so
far, and either the construct state or the aborting error. -/
abbrev Outcome := List Event × Except ProvisionError ConstructResult

/-- A `gw["key"]` subscript: continues with the value, or raises `KeyError`
leaving the trace of backend calls already made. -/
def withKey (gw : Config) (key : String) (tr : List Event)
    (f : CfgVal → Outcome) : Outcome :=
  match Config.find gw key with
  | some v => f v
  | none => (tr, .error (.keyError key))

/-- Using a bundle value where Python string concatenation requires a
string: continues with the string, or raises `TypeError`. -/
def withStr (v : CfgVal) (tr : List Event) (f : String → Outcome) : Outcome :=
  match v with
  | .str s => f s
  | .num _ => (tr, .error .typeError)

/-- `ApiLambdaIntegationRestConstruct.__init__(self, scope, construct_id,
stage, lambda_fn_alias, gw_context)`, line by line in source order.
`gw_context` is the already-performed context lookup
(`self.node.try_get_context(gw_context)`): `none` when the context key is
absent.  `lambda_fn_alias` is the opaque function-alias handle. -/
def ApiLambdaIntegationRestConstructInit (stage : String)
    (lambda_fn_alias : String) (gw_context : Option Config) : Outcome :=
  match gw_context with
  | none => ([], .error .contextMissing)
  | some gw =>
    -- api_log_group = _logs.LogGroup(self, gw["gw_log_group_name"],
    --   log_group_name="/aws/apigateway/" + gw["gw_log_group_name"], ...)
    withKey gw "gw_log_group_name" [] fun lg_id =>
    withKey gw "gw_log_group_name" [] fun lg_val =>
    withStr lg_val [] fun lg =>
    let log_group_name := "/aws/apigateway/" ++ lg
    let tr1 := [Event.logGroup lg_id log_group_name LOG_RETENTION_PERIOD
      RemovalPolicy.DESTROY]
    -- gateway = _api_gw.RestApi(self, gw["gw_name"],
    --   rest_api_name=gw["gw_name"], deploy_options={...},
    --   endpoint_configuration={...}, deploy=True, cloud_watch_role=True,
    --   description=gw["gw_description"])
    withKey gw "gw_name" tr1 fun nm =>
    withKey gw "gw_name" tr1 fun nm2 =>
    withKey gw "gw_stage_description" tr1 fun sd =>
    withKey gw "gw_endpoint_type" tr1 fun et =>
    withKey gw "gw_description" tr1 fun de =>
    let tr2 := tr1 ++ [Event.restApi nm nm2
      { description := sd
        logging_level := LOG_INFO
        tracing_enabled := true
        stage_name := stage
        access_log_destination := log_group_name
        access_log_format := jsonWithStandardFields
        metrics_enabled := true }
      [resolveEndpointType et] true true de]
    let gateway : RestApiObj := { rest_api_name := nm, url := restApiUrl nm }
    -- response_model = gateway.add_model(gw["gw_response_model_name"], ...)
    withKey gw "gw_response_model_name" tr2 fun rm1 =>
    withKey gw "gw_response_model_name" tr2 fun rm2 =>
    withKey gw "gw_response_model_name" tr2 fun rm3 =>
    let tr3 := tr2 ++ [Event.addModel rm1 "application/json" rm2
      { schema := JsonSchemaVersion.DRAFT4
        title := rm3
        type := JsonSchemaType.OBJECT
        properties := [("message", JsonSchemaType.STRING)] }]
    -- error_response_model = gateway.add_model(gw["gw_error_response_model_name"], ...)
    withKey gw "gw_error_response_model_name" tr3 fun erm1 =>
    withKey gw "gw_error_response_model_name" tr3 fun erm2 =>
    withKey gw "gw_error_response_model_name" tr3 fun erm3 =>
    let tr4 := tr3 ++ [Event.addModel erm1 "application/json" erm2
      { schema := JsonSchemaVersion.DRAFT4
        title := erm3
        type := JsonSchemaType.OBJECT
        properties := [("state", JsonSchemaType.STRING),
                       ("message", JsonSchemaType.STRING)] }]
    -- pass_context = gw["gw_passthrough_behavior"]
    withKey gw "gw_passthrough_behavior" tr4 fun pass_context =>
    -- passthrough_behavior = ... chained conditional ...
    -- lambda_integration = _api_gw.LambdaIntegration(lambda_fn_alias,
    --   proxy=False, passthrough_behavior=passthrough_behavior)
    let tr5 := tr4 ++ [Event.lambdaIntegration lambda_fn_alias false
      (resolvePassthrough pass_context)]
    -- gateway_root_resource = gateway.root.add_resource(gw["gw_root_resource"])
    withKey gw "gw_root_resource" tr5 fun rr =>
    let tr6 := tr5 ++ [Event.addResource rr]
    -- gateway_post_method = gateway_root_resource.add_method(gw["gw_method"],
    --   lambda_integration, api_key_required=True, method_responses=[...])
    withKey gw "gw_method" tr6 fun mth =>
    let tr7 := tr6 ++ [Event.addMethod mth true
      [ { status_code := "200"
          response_models := [("application/json", rm2)] },
        { status_code := "400"
          response_models := [("application/json", erm2)] } ]]
    let gateway_post_method : MethodRef := { http_method := mth }
    -- gateway_root_resource.add_cors_preflight(
    --   allow_origins=[gw["gw_origins_cors"]],
    --   allow_methods=[gw["gw_origins_cors_method"]])
    withKey gw "gw_origins_cors" tr7 fun co =>
    withKey gw "gw_origins_cors_method" tr7 fun com =>
    let tr8 := tr7 ++ [Event.addCorsPreflight [co] [com]]
    -- gateway_post_key = gateway.add_api_key(gw["gw_api_key_name"],
    --   api_key_name=gw["gw_api_key_name"])
    withKey gw "gw_api_key_name" tr8 fun ak1 =>
    withKey gw "gw_api_key_name" tr8 fun ak2 =>
    let tr9 := tr8 ++ [Event.addApiKey ak1 ak2]
    -- api_key_usage_plan = gateway.add_usage_plan(
    --   gw["gw_api_key_usage_plan_name"], name=gw["gw_api_key_usage_plan_name"],
    --   api_key=gateway_post_key, throttle={...})
    withKey gw "gw_api_key_usage_plan_name" tr9 fun up1 =>
    withKey gw "gw_api_key_usage_plan_name" tr9 fun up2 =>
    withKey gw "gw_api_key_usage_throttle" tr9 fun thr =>
    withKey gw "gw_api_key_usage_burst" tr9 fun bur =>
    let tr10 := tr9 ++ [Event.addUsagePlan up1 up2 ak2
      { rate_limit := thr, burst_limit := bur }]
    -- api_key_usage_plan.add_api_stage(stage=gateway.deployment_stage,
    --   throttle=[{"method": gateway_post_method, "throttle": {...}}])
    withKey gw "gw_api_key_usage_throttle" tr10 fun thr2 =>
    withKey gw "gw_api_key_usage_burst" tr10 fun bur2 =>
    let tr11 := tr10 ++ [Event.addApiStage stage
      [ { method := gateway_post_method
          throttle := { rate_limit := thr2, burst_limit := bur2 } } ]]
    -- core.CfnOutput(self, "ApiGwUrl", value=(gateway.url))
    let tr12 := tr11 ++ [Event.cfnOutput "ApiGwUrl" gateway.url]
    -- core.CfnOutput(self, "ApiGWLogGroup", value=(api_log_group.log_group_name))
    let tr13 := tr12 ++ [Event.cfnOutput "ApiGWLogGroup" log_group_name]
    -- self.apigw = gateway
    (tr13, .ok { apigw := gateway })

/-- The read-only property `main_api`: `return self.apigw`. -/
def main_api (c : ConstructResult) : RestApiObj := c.apigw

/-! Helpers for reasoning about the trace. -/

/-- The full trace of backend calls made by a run in which every bundle
lookup succeeds, as a function of the bundle values. -/
def fullTrace (stage lambda_fn_alias lg : String)
    (nm sd et de rm erm pb rr mth co com ak up thr bur : CfgVal) :
    List Event :=
  [ Event.logGroup (.str lg) ("/aws/apigateway/" ++ lg) LOG_RETENTION_PERIOD
      RemovalPolicy.DESTROY,
    Event.restApi nm nm
      { description := sd
        logging_level := LOG_INFO
        tracing_enabled := true
        stage_name := stage
        access_log_destination := "/aws/apigateway/" ++ lg
        access_log_format := jsonWithStandardFields
        metrics_enabled := true }
      [resolveEndpointType et] true true de,
    Event.addModel rm "application/json" rm
      { schema := JsonSchemaVersion.DRAFT4
        title := rm
        type := JsonSchemaType.OBJECT
        properties := [("message", JsonSchemaType.STRING)] },
    Event.addModel erm "application/json" erm
      { schema := JsonSchemaVersion.DRAFT4
        title := erm
        type := JsonSchemaType.OBJECT
        properties := [("state", JsonSchemaType.STRING),
                       ("message", JsonSchemaType.STRING)] },
    Event.lambdaIntegration lambda_fn_alias false (resolvePassthrough pb),
    Event.addResource rr,
    Event.addMethod mth true
      [ { status_code := "200"
          response_models := [("application/json", rm)] },
        { status_code := "400"
          response_models := [("application/json", erm)] } ],
    Event.addCorsPreflight [co] [com],
    Event.addApiKey ak ak,
    Event.addUsagePlan up up ak { rate_limit := thr, burst_limit := bur },
    Event.addApiStage stage
      [ { method := { http_method := mth }
          throttle := { rate_limit := thr, burst_limit := bur } } ],
    Event.cfnOutput "ApiGwUrl" (restApiUrl nm),
    Event.cfnOutput "ApiGWLogGroup" ("/aws/apigateway/" ++ lg) ]

/-- Recognize a log-group creation call. -/
def Event.isLogGroup : Event → Bool
  | .logGroup .. => true
  | _ => false

/-- Recognize a gateway (RestApi) creation call. -/
def Event.isRestApi : Event → Bool
  | .restApi .. => true
  | _ => false

/-- Recognize an `add_model` call. -/
def Event.isAddModel : Event → Bool
  | .addModel .. => true
  | _ => false

/-- Recognize an `add_method` call. -/
def Event.isAddMethod : Event → Bool
  | .addMethod .. => true
  | _ => false

/-- Recognize an `add_api_key` call. -/
def Event.isAddApiKey : Event → Bool
  | .addApiKey .. => true
  | _ => false

/-- Recognize an `add_usage_plan` call. -/
def Event.isAddUsagePlan : Event → Bool
  | .addUsagePlan .. => true
  | _ => false

/-- Endpoint types passed at the first gateway-creation call of a trace. -/
def restApiEndpointTypes : List Event → Option (List EndpointType)
  | [] => none
  | .restApi _ _ _ ts _ _ _ :: _ => some ts
  | _ :: rest => restApiEndpointTypes rest

/-- The `rest_api_name` passed at the first gateway-creation call. -/
def restApiNameOf : List Event → Option CfgVal
  | [] => none
  | .restApi _ n _ _ _ _ _ :: _ => some n
  | _ :: rest => restApiNameOf rest

/-- The passthrough behavior passed at the first integration call. -/
def integrationBehavior : List Event → Option PassthroughBehavior
  | [] => none
  | .lambdaIntegration _ _ pb :: _ => some pb
  | _ :: rest => integrationBehavior rest

/-- The throttle passed at the first `add_usage_plan` call. -/
def usagePlanThrottle : List Event → Option ThrottleSettings
  | [] => none
  | .addUsagePlan _ _ _ t :: _ => some t
  | _ :: rest => usagePlanThrottle rest

/-- The per-method throttle list passed at the first `add_api_stage` call. -/
def apiStageThrottles : List Event → Option (List ThrottlingPerMethod)
  | [] => none
  | .addApiStage _ ts :: _ => some ts
  | _ :: rest => apiStageThrottles rest

/-- The first `add_method` call of a trace. -/
def addMethodOf : List Event → Option Event
  | [] => none
  | .addMethod m k rs :: _ => some (.addMethod m k rs)
  | _ :: rest => addMethodOf rest

/-- The first log-group creation call of a trace. -/
def logGroupOf : List Event → Option Event
  | [] => none
  | .logGroup i n r p :: _ => some (.logGroup i n r p)
  | _ :: rest => logGroupOf rest

/-- The `log_group_name` passed at the first log-group creation call. -/
def logGroupNameOf : List Event → Option String
  | [] => none
  | .logGroup _ n _ _ :: _ => some n
  | _ :: rest => logGroupNameOf rest

/-- The `CfnOutput` calls of a trace, as (name, value) pairs in order. -/
def outputsOf (tr : List Event) : List (String × String) :=
  tr.filterMap fun e =>
    match e with
    | .cfnOutput n v => some (n, v)
    | _ => none

/-- Master lemma: on a bundle in which every key the construct reads is
present (with a string log-group name), `__init__` performs exactly the
backend calls of `fullTrace`, in that order, and stores the created gateway
in `self.apigw`. -/
theorem init_eq_fullTrace (gw : Config) (stage lambda_fn_alias lg : String)
    (nm sd et de rm erm pb rr mth co com ak up thr bur : CfgVal)
    (hlg : Config.find gw "gw_log_group_name" = some (.str lg))
    (hnm : Config.find gw "gw_name" = some nm)
    (hsd : Config.find gw "gw_stage_description" = some sd)
    (het : Config.find gw "gw_endpoint_type" = some et)
    (hde : Config.find gw "gw_description" = some de)
    (hrm : Config.find gw "gw_response_model_name" = some rm)
    (herm : Config.find gw "gw_error_response_model_name" = some erm)
    (hpb : Config.find gw "gw_passthrough_behavior" = some pb)
    (hrr : Config.find gw "gw_root_resource" = some rr)
    (hmth : Config.find gw "gw_method" = some mth)
    (hco : Config.find gw "gw_origins_cors" = some co)
    (hcom : Config.find gw "gw_origins_cors_method" = some com)
    (hak : Config.find gw "gw_api_key_name" = some ak)
    (hup : Config.find gw "gw_api_key_usage_plan_name" = some up)
    (hthr : Config.find gw "gw_api_key_usage_throttle" = some thr)
    (hbur : Config.find gw "gw_api_key_usage_burst" = some bur) :
    ApiLambdaIntegationRestConstructInit stage lambda_fn_alias (some gw) =
      (fullTrace stage lambda_fn_alias lg nm sd et de rm erm pb rr mth co com
         ak up thr bur,
       .ok { apigw := { rest_api_name := nm, url := restApiUrl nm } }) := by
  simp [ApiLambdaIntegationRestConstructInit, withKey, withStr, fullTrace,
    hlg, hnm, hsd, het, hde, hrm, herm, hpb, hrr, hmth, hco, hcom, hak, hup,
    hthr, hbur]

/-! Concrete bundles used as witnesses and counterexamples. -/

/-- A complete, valid configuration bundle. -/
def cfgEx : Config :=
  [("gw_log_group_name", .str "gwlogs"),
   ("gw_name", .str "mygw"),
   ("gw_stage_description", .str "dev stage"),
   ("gw_endpoint_type", .str "regional"),
   ("gw_description", .str "my gateway"),
   ("gw_response_model_name", .str "RespModel"),
   ("gw_error_response_model_name", .str "ErrModel"),
   ("gw_passthrough_behavior", .str "WHEN_NO_MATCH"),
   ("gw_root_resource", .str "things"),
   ("gw_method", .str "POST"),
   ("gw_origins_cors", .str "https://origin.example"),
   ("gw_origins_cors_method", .str "POST"),
   ("gw_api_key_name", .str "key1"),
   ("gw_api_key_usage_plan_name", .str "plan1"),
   ("gw_api_key_usage_throttle", .num 10),
   ("gw_api_key_usage_burst", .num 20)]

/-- `cfgEx` with the `gw_name` entry removed. -/
def cfgNoGwName : Config := cfgEx.filter fun kv => kv.1 ≠ "gw_name"

/-- `cfgEx` with the `gw_endpoint_type` entry removed. -/
def cfgNoEndpointType : Config :=
  cfgEx.filter fun kv => kv.1 ≠ "gw_endpoint_type"

/-! ### C1
The spec claims a missing `gw_name` fails before ANY backend call, in
particular before the log group is created.  In the source the log group is
created first (line 28) and `gw["gw_name"]` is only read at the `RestApi`
call (line 38), so the error comes after the log-group creation call. -/

/-- C1 counterexample: on a bundle lacking only `gw_name`, provisioning does
fail with the missing-key configuration error, but the trace already
contains the log-group creation call — the error is NOT raised before every
backend call, refuting the claim as stated. -/
theorem missing_gw_name_counterexample :
    (ApiLambdaIntegationRestConstructInit "dev" "fnAlias"
        (some cfgNoGwName)).snd = .error (.keyError "gw_name") ∧
    ((ApiLambdaIntegationRestConstructInit "dev" "fnAlias"
        (some cfgNoGwName)).fst.countP Event.isLogGroup = 1) := by
  constructor <;> rfl

/-- C1 (amended): if the bundle lacks the `gw_name` key (and the log-group
step succeeds), provisioning fails with the missing-key configuration
error, raised before the gateway-creation call but after the log-group
creation call: the trace at failure is exactly the one log-group event. -/
theorem missing_gw_name_fails_after_log_group
    (gw : Config) (stage lambda_fn_alias lg : String)
    (hlg : Config.find gw "gw_log_group_name" = some (.str lg))
    (hnm : Config.find gw "gw_name" = none) :
    ApiLambdaIntegationRestConstructInit stage lambda_fn_alias (some gw) =
      ([Event.logGroup (.str lg) ("/aws/apigateway/" ++ lg)
          LOG_RETENTION_PERIOD RemovalPolicy.DESTROY],
       .error (.keyError "gw_name")) := by
  simp [ApiLambdaIntegationRestConstructInit, withKey, withStr, hlg, hnm]

/-- C1 witness: the amended theorem applied to the concrete bundle lacking
`gw_name`. -/
theorem missing_gw_name_fails_after_log_group_witness :
    ApiLambdaIntegationRestConstructInit "dev" "fnAlias"
        (some cfgNoGwName) =
      ([Event.logGroup (.str "gwlogs") ("/aws/apigateway/" ++ "gwlogs")
          LOG_RETENTION_PERIOD RemovalPolicy.DESTROY],
       .error (.keyError "gw_name")) :=
  missing_gw_name_fails_after_log_group cfgNoGwName "dev" "fnAlias" "gwlogs"
    rfl rfl

/-! ### C2
The spec claims an absent `gw_endpoint_type` yields an edge endpoint.  In
the source `gw["gw_endpoint_type"]` raises `KeyError` when the key is
absent, so provisioning aborts and no gateway is created at all. -/

/-- C2 counterexample: on a bundle lacking only `gw_endpoint_type`,
provisioning fails with the missing-key error and the trace contains no
gateway-creation call — the endpoint type is not edge (there is no
endpoint), refuting the claim for the absent case. -/
theorem absent_endpoint_type_counterexample :
    (ApiLambdaIntegationRestConstructInit "dev" "fnAlias"
        (some cfgNoEndpointType)).snd =
      .error (.keyError "gw_endpoint_type") ∧
    restApiEndpointTypes (ApiLambdaIntegationRestConstructInit "dev"
        "fnAlias" (some cfgNoEndpointType)).fst = none := by
  constructor <;> rfl

/-- C2 (amended): on a valid bundle, the endpoint type passed at gateway
creation is regional exactly when `gw_endpoint_type` is the string
`"regional"` and edge for any other present value; when the key is absent,
provisioning fails with the missing-key configuration error and no gateway
is created. -/
theorem gw_endpoint_type_resolution :
    (∀ (gw : Config) (stage lambda_fn_alias lg : String)
       (nm sd et de rm erm pb rr mth co com ak up thr bur : CfgVal),
       Config.find gw "gw_log_group_name" = some (.str lg) →
       Config.find gw "gw_name" = some nm →
       Config.find gw "gw_stage_description" = some sd →
       Config.find gw "gw_endpoint_type" = some et →
       Config.find gw "gw_description" = some de →
       Config.find gw "gw_response_model_name" = some rm →
       Config.find gw "gw_error_response_model_name" = some erm →
       Config.find gw "gw_passthrough_behavior" = some pb →
       Config.find gw "gw_root_resource" = some rr →
       Config.find gw "gw_method" = some mth →
       Config.find gw "gw_origins_cors" = some co →
       Config.find gw "gw_origins_cors_method" = some com →
       Config.find gw "gw_api_key_name" = some ak →
       Config.find gw "gw_api_key_usage_plan_name" = some up →
       Config.find gw "gw_api_key_usage_throttle" = some thr →
       Config.find gw "gw_api_key_usage_burst" = some bur →
       restApiEndpointTypes (ApiLambdaIntegationRestConstructInit stage
           lambda_fn_alias (some gw)).fst =
         some [resolveEndpointType et] ∧
       (et = .str "regional" →
         resolveEndpointType et = EndpointType.REGIONAL) ∧
       (et ≠ .str "regional" → resolveEndpointType et = EndpointType.EDGE))
    ∧
    (∀ (gw : Config) (stage lambda_fn_alias lg : String) (nm sd : CfgVal),
       Config.find gw "gw_log_group_name" = some (.str lg) →
       Config.find gw "gw_name" = some nm →
       Config.find gw "gw_stage_description" = some sd →
       Config.find gw "gw_endpoint_type" = none →
       (ApiLambdaIntegationRestConstructInit stage lambda_fn_alias
           (some gw)).snd = .error (.keyError "gw_endpoint_type") ∧
       restApiEndpointTypes (ApiLambdaIntegationRestConstructInit stage
           lambda_fn_alias (some gw)).fst = none) := by
  constructor
  · intro gw stage lambda_fn_alias lg nm sd et de rm erm pb rr mth co com ak
      up thr bur hlg hnm hsd het hde hrm herm hpb hrr hmth hco hcom hak hup
      hthr hbur
    rw [init_eq_fullTrace gw stage lambda_fn_alias lg nm sd et de rm erm pb
      rr mth co com ak up thr bur hlg hnm hsd het hde hrm herm hpb hrr hmth
      hco hcom hak hup hthr hbur]
    refine ⟨rfl, ?_, ?_⟩
    · rintro rfl
      rfl
    · intro hne
      cases et with
      | str s =>
        have hs : s ≠ "regional" := fun h => hne (by rw [h])
        simp [resolveEndpointType, cfgEq, hs]
      | num n => simp [resolveEndpointType, cfgEq]
  · intro gw stage lambda_fn_alias lg nm sd hlg hnm hsd het
    constructor
    · simp [ApiLambdaIntegationRestConstructInit, withKey, withStr, hlg,
        hnm, hsd, het]
    · simp [ApiLambdaIntegationRestConstructInit, withKey, withStr, hlg,
        hnm, hsd, het, restApiEndpointTypes]

/-- C2 witness: both parts of the amended endpoint-type theorem applied to
concrete bundles (`cfgEx` with `"regional"`; `cfgNoEndpointType` absent). -/
theorem gw_endpoint_type_resolution_witness :
    restApiEndpointTypes (ApiLambdaIntegationRestConstructInit "dev"
        "fnAlias" (some cfgEx)).fst =
      some [resolveEndpointType (.str "regional")] ∧
    (ApiLambdaIntegationRestConstructInit "dev" "fnAlias"
        (some cfgNoEndpointType)).snd =
      .error (.keyError "gw_endpoint_type") :=
  ⟨(gw_endpoint_type_resolution.1 cfgEx "dev" "fnAlias" "gwlogs"
      (.str "mygw") (.str "dev stage") (.str "regional") (.str "my gateway")
      (.str "RespModel") (.str "ErrModel") (.str "WHEN_NO_MATCH")
      (.str "things") (.str "POST") (.str "https://origin.example")
      (.str "POST") (.str "key1") (.str "plan1") (.num 10) (.num 20)
      rfl rfl rfl rfl rfl rfl rfl rfl rfl rfl rfl rfl rfl rfl rfl rfl).1,
   (gw_endpoint_type_resolution.2 cfgNoEndpointType "dev" "fnAlias" "gwlogs"
      (.str "mygw") (.str "dev stage") rfl rfl rfl rfl).1⟩

/-! ### C3 -/

/-- C3: on a valid bundle whose `gw_passthrough_behavior` entry is the
string `s`, provisioning completes without error, the integration is
created with the resolved policy, and the resolution is the three-way
match: `"WHEN_NO_TEMPLATES"` and `"WHEN_NO_MATCH"` map to themselves and
every other string maps to the NEVER policy. -/
theorem passthrough_resolution_three_way
    (gw : Config) (stage lambda_fn_alias lg : String)
    (nm sd et de rm erm rr mth co com ak up thr bur : CfgVal) (s : String)
    (hlg : Config.find gw "gw_log_group_name" = some (.str lg))
    (hnm : Config.find gw "gw_name" = some nm)
    (hsd : Config.find gw "gw_stage_description" = some sd)
    (het : Config.find gw "gw_endpoint_type" = some et)
    (hde : Config.find gw "gw_description" = some de)
    (hrm : Config.find gw "gw_response_model_name" = some rm)
    (herm : Config.find gw "gw_error_response_model_name" = some erm)
    (hpb : Config.find gw "gw_passthrough_behavior" = some (.str s))
    (hrr : Config.find gw "gw_root_resource" = some rr)
    (hmth : Config.find gw "gw_method" = some mth)
    (hco : Config.find gw "gw_origins_cors" = some co)
    (hcom : Config.find gw "gw_origins_cors_method" = some com)
    (hak : Config.find gw "gw_api_key_name" = some ak)
    (hup : Config.find gw "gw_api_key_usage_plan_name" = some up)
    (hthr : Config.find gw "gw_api_key_usage_throttle" = some thr)
    (hbur : Config.find gw "gw_api_key_usage_burst" = some bur) :
    (ApiLambdaIntegationRestConstructInit stage lambda_fn_alias
        (some gw)).snd =
      .ok { apigw := { rest_api_name := nm, url := restApiUrl nm } } ∧
    integrationBehavior (ApiLambdaIntegationRestConstructInit stage
        lambda_fn_alias (some gw)).fst =
      some (resolvePassthrough (.str s)) ∧
    (s = "WHEN_NO_TEMPLATES" →
      resolvePassthrough (.str s) = PassthroughBehavior.WHEN_NO_TEMPLATES) ∧
    (s = "WHEN_NO_MATCH" →
      resolvePassthrough (.str s) = PassthroughBehavior.WHEN_NO_MATCH) ∧
    (s ≠ "WHEN_NO_TEMPLATES" → s ≠ "WHEN_NO_MATCH" →
      resolvePassthrough (.str s) = PassthroughBehavior.NEVER) := by
  rw [init_eq_fullTrace gw stage lambda_fn_alias lg nm sd et de rm erm
    (.str s) rr mth co com ak up thr bur hlg hnm hsd het hde hrm herm hpb
    hrr hmth hco hcom hak hup hthr hbur]
  refine ⟨rfl, rfl, ?_, ?_, ?_⟩
  · rintro rfl
    rfl
  · rintro rfl
    rfl
  · intro h1 h2
    simp [resolvePassthrough, cfgEq, h1, h2]

/-- C3 witness: the three-way resolution theorem applied to `cfgEx`, whose
passthrough selector is `"WHEN_NO_MATCH"`. -/
theorem passthrough_resolution_three_way_witness :
    (ApiLambdaIntegationRestConstructInit "dev" "fnAlias"
        (some cfgEx)).snd =
      .ok { apigw := { rest_api_name := .str "mygw"
                       url := restApiUrl (.str "mygw") } } ∧
    integrationBehavior (ApiLambdaIntegationRestConstructInit "dev"
        "fnAlias" (some cfgEx)).fst =
      some (resolvePassthrough (.str "WHEN_NO_MATCH")) ∧
    ("WHEN_NO_MATCH" = "WHEN_NO_TEMPLATES" →
      resolvePassthrough (.str "WHEN_NO_MATCH") =
        PassthroughBehavior.WHEN_NO_TEMPLATES) ∧
    ("WHEN_NO_MATCH" = "WHEN_NO_MATCH" →
      resolvePassthrough (.str "WHEN_NO_MATCH") =
        PassthroughBehavior.WHEN_NO_MATCH) ∧
    ("WHEN_NO_MATCH" ≠ "WHEN_NO_TEMPLATES" → "WHEN_NO_MATCH" ≠ "WHEN_NO_MATCH" →
      resolvePassthrough (.str "WHEN_NO_MATCH") =
        PassthroughBehavior.NEVER) :=
  passthrough_resolution_three_way cfgEx "dev" "fnAlias" "gwlogs"
    (.str "mygw") (.str "dev stage") (.str "regional") (.str "my gateway")
    (.str "RespModel") (.str "ErrModel") (.str "things") (.str "POST")
    (.str "https://origin.example") (.str "POST") (.str "key1")
    (.str "plan1") (.num 10) (.num 20) "WHEN_NO_MATCH"
    rfl rfl rfl rfl rfl rfl rfl rfl rfl rfl rfl rfl rfl rfl rfl rfl

/-! ### C4 -/

/-- C4: on a valid bundle, the throttle passed at the `add_usage_plan` call
and the per-method throttle passed at the `add_api_stage` call are the same
rate/burst pair, both taken verbatim from the bundle's
`gw_api_key_usage_throttle` and `gw_api_key_usage_burst` entries. -/
theorem usage_plan_throttle_duplication
    (gw : Config) (stage lambda_fn_alias lg : String)
    (nm sd et de rm erm pb rr mth co com ak up thr bur : CfgVal)
    (hlg : Config.find gw "gw_log_group_name" = some (.str lg))
    (hnm : Config.find gw "gw_name" = some nm)
    (hsd : Config.find gw "gw_stage_description" = some sd)
    (het : Config.find gw "gw_endpoint_type" = some et)
    (hde : Config.find gw "gw_description" = some de)
    (hrm : Config.find gw "gw_response_model_name" = some rm)
    (herm : Config.find gw "gw_error_response_model_name" = some erm)
    (hpb : Config.find gw "gw_passthrough_behavior" = some pb)
    (hrr : Config.find gw "gw_root_resource" = some rr)
    (hmth : Config.find gw "gw_method" = some mth)
    (hco : Config.find gw "gw_origins_cors" = some co)
    (hcom : Config.find gw "gw_origins_cors_method" = some com)
    (hak : Config.find gw "gw_api_key_name" = some ak)
    (hup : Config.find gw "gw_api_key_usage_plan_name" = some up)
    (hthr : Config.find gw "gw_api_key_usage_throttle" = some thr)
    (hbur : Config.find gw "gw_api_key_usage_burst" = some bur) :
    usagePlanThrottle (ApiLambdaIntegationRestConstructInit stage
        lambda_fn_alias (some gw)).fst =
      some { rate_limit := thr, burst_limit := bur } ∧
    apiStageThrottles (ApiLambdaIntegationRestConstructInit stage
        lambda_fn_alias (some gw)).fst =
      some [ { method := { http_method := mth }
               throttle := { rate_limit := thr, burst_limit := bur } } ] := by
  rw [init_eq_fullTrace gw stage lambda_fn_alias lg nm sd et de rm erm pb
    rr mth co com ak up thr bur hlg hnm hsd het hde hrm herm hpb hrr hmth
    hco hcom hak hup hthr hbur]
  exact ⟨rfl, rfl⟩

/-- C4 witness: the throttle-duplication theorem applied to `cfgEx`
(rate 10, burst 20 at both scopes). -/
theorem usage_plan_throttle_duplication_witness :
    usagePlanThrottle (ApiLambdaIntegationRestConstructInit "dev" "fnAlias"
        (some cfgEx)).fst =
      some { rate_limit := .num 10, burst_limit := .num 20 } ∧
    apiStageThrottles (ApiLambdaIntegationRestConstructInit "dev" "fnAlias"
        (some cfgEx)).fst =
      some [ { method := { http_method := .str "POST" }
               throttle := { rate_limit := .num 10
                             burst_limit := .num 20 } } ] :=
  usage_plan_throttle_duplication cfgEx "dev" "fnAlias" "gwlogs"
    (.str "mygw") (.str "dev stage") (.str "regional") (.str "my gateway")
    (.str "RespModel") (.str "ErrModel") (.str "WHEN_NO_MATCH")
    (.str "things") (.str "POST") (.str "https://origin.example")
    (.str "POST") (.str "key1") (.str "plan1") (.num 10) (.num 20)
    rfl rfl rfl rfl rfl rfl rfl rfl rfl rfl rfl rfl rfl rfl rfl rfl

/-! ### C5 -/

/-- C5: on a valid bundle, one instantiation makes exactly one
gateway-creation call, one log-group creation call, one usage-plan call,
one API-key call, and exactly two `add_model` calls — the first the success
model (a `message` field), the second the error model (`state` and
`message` fields). -/
theorem single_instantiation_resource_counts
    (gw : Config) (stage lambda_fn_alias lg : String)
    (nm sd et de rm erm pb rr mth co com ak up thr bur : CfgVal)
    (hlg : Config.find gw "gw_log_group_name" = some (.str lg))
    (hnm : Config.find gw "gw_name" = some nm)
    (hsd : Config.find gw "gw_stage_description" = some sd)
    (het : Config.find gw "gw_endpoint_type" = some et)
    (hde : Config.find gw "gw_description" = some de)
    (hrm : Config.find gw "gw_response_model_name" = some rm)
    (herm : Config.find gw "gw_error_response_model_name" = some erm)
    (hpb : Config.find gw "gw_passthrough_behavior" = some pb)
    (hrr : Config.find gw "gw_root_resource" = some rr)
    (hmth : Config.find gw "gw_method" = some mth)
    (hco : Config.find gw "gw_origins_cors" = some co)
    (hcom : Config.find gw "gw_origins_cors_method" = some com)
    (hak : Config.find gw "gw_api_key_name" = some ak)
    (hup : Config.find gw "gw_api_key_usage_plan_name" = some up)
    (hthr : Config.find gw "gw_api_key_usage_throttle" = some thr)
    (hbur : Config.find gw "gw_api_key_usage_burst" = some bur) :
    ((ApiLambdaIntegationRestConstructInit stage lambda_fn_alias
        (some gw)).fst.countP Event.isRestApi = 1) ∧
    ((ApiLambdaIntegationRestConstructInit stage lambda_fn_alias
        (some gw)).fst.countP Event.isLogGroup = 1) ∧
    ((ApiLambdaIntegationRestConstructInit stage lambda_fn_alias
        (some gw)).fst.countP Event.isAddUsagePlan = 1) ∧
    ((ApiLambdaIntegationRestConstructInit stage lambda_fn_alias
        (some gw)).fst.countP Event.isAddApiKey = 1) ∧
    ((ApiLambdaIntegationRestConstructInit stage lambda_fn_alias
        (some gw)).fst.filter Event.isAddModel =
      [Event.addModel rm "application/json" rm
        { schema := JsonSchemaVersion.DRAFT4
          title := rm
          type := JsonSchemaType.OBJECT
          properties := [("message", JsonSchemaType.STRING)] },
       Event.addModel erm "application/json" erm
        { schema := JsonSchemaVersion.DRAFT4
          title := erm
          type := JsonSchemaType.OBJECT
          properties := [("state", JsonSchemaType.STRING),
                         ("message", JsonSchemaType.STRING)] }]) := by
  rw [init_eq_fullTrace gw stage lambda_fn_alias lg nm sd et de rm erm pb
    rr mth co com ak up thr bur hlg hnm hsd het hde hrm herm hpb hrr hmth
    hco hcom hak hup hthr hbur]
  exact ⟨rfl, rfl, rfl, rfl, rfl⟩

/-- C5 witness: the resource-count theorem applied to `cfgEx`. -/
theorem single_instantiation_resource_counts_witness :
    ((ApiLambdaIntegationRestConstructInit "dev" "fnAlias"
        (some cfgEx)).fst.countP Event.isRestApi = 1) ∧
    ((ApiLambdaIntegationRestConstructInit "dev" "fnAlias"
        (some cfgEx)).fst.countP Event.isLogGroup = 1) ∧
    ((ApiLambdaIntegationRestConstructInit "dev" "fnAlias"
        (some cfgEx)).fst.countP Event.isAddUsagePlan = 1) ∧
    ((ApiLambdaIntegationRestConstructInit "dev" "fnAlias"
        (some cfgEx)).fst.countP Event.isAddApiKey = 1) ∧
    ((ApiLambdaIntegationRestConstructInit "dev" "fnAlias"
        (some cfgEx)).fst.filter Event.isAddModel =
      [Event.addModel (.str "RespModel") "application/json"
        (.str "RespModel")
        { schema := JsonSchemaVersion.DRAFT4
          title := .str "RespModel"
          type := JsonSchemaType.OBJECT
          properties := [("message", JsonSchemaType.STRING)] },
       Event.addModel (.str "ErrModel") "application/json" (.str "ErrModel")
        { schema := JsonSchemaVersion.DRAFT4
          title := .str "ErrModel"
          type := JsonSchemaType.OBJECT
          properties := [("state", JsonSchemaType.STRING),
                         ("message", JsonSchemaType.STRING)] }]) :=
  single_instantiation_resource_counts cfgEx "dev" "fnAlias" "gwlogs"
    (.str "mygw") (.str "dev stage") (.str "regional") (.str "my gateway")
    (.str "RespModel") (.str "ErrModel") (.str "WHEN_NO_MATCH")
    (.str "things") (.str "POST") (.str "https://origin.example")
    (.str "POST") (.str "key1") (.str "plan1") (.num 10) (.num 20)
    rfl rfl rfl rfl rfl rfl rfl rfl rfl rfl rfl rfl rfl rfl rfl rfl

/-! ### C6 -/

/-- C6: on a valid bundle, the single `add_method` call requires an API key
and declares exactly two method responses: status `"200"` mapped to the
success model and status `"400"` mapped to the error model, both under
content type `application/json`. -/
theorem gateway_post_method_responses
    (gw : Config) (stage lambda_fn_alias lg : String)
    (nm sd et de rm erm pb rr mth co com ak up thr bur : CfgVal)
    (hlg : Config.find gw "gw_log_group_name" = some (.str lg))
    (hnm : Config.find gw "gw_name" = some nm)
    (hsd : Config.find gw "gw_stage_description" = some sd)
    (het : Config.find gw "gw_endpoint_type" = some et)
    (hde : Config.find gw "gw_description" = some de)
    (hrm : Config.find gw "gw_response_model_name" = some rm)
    (herm : Config.find gw "gw_error_response_model_name" = some erm)
    (hpb : Config.find gw "gw_passthrough_behavior" = some pb)
    (hrr : Config.find gw "gw_root_resource" = some rr)
    (hmth : Config.find gw "gw_method" = some mth)
    (hco : Config.find gw "gw_origins_cors" = some co)
    (hcom : Config.find gw "gw_origins_cors_method" = some com)
    (hak : Config.find gw "gw_api_key_name" = some ak)
    (hup : Config.find gw "gw_api_key_usage_plan_name" = some up)
    (hthr : Config.find gw "gw_api_key_usage_throttle" = some thr)
    (hbur : Config.find gw "gw_api_key_usage_burst" = some bur) :
    ((ApiLambdaIntegationRestConstructInit stage lambda_fn_alias
        (some gw)).fst.countP Event.isAddMethod = 1) ∧
    addMethodOf (ApiLambdaIntegationRestConstructInit stage lambda_fn_alias
        (some gw)).fst =
      some (Event.addMethod mth true
        [ { status_code := "200"
            response_models := [("application/json", rm)] },
          { status_code := "400"
            response_models := [("application/json", erm)] } ]) := by
  rw [init_eq_fullTrace gw stage lambda_fn_alias lg nm sd et de rm erm pb
    rr mth co com ak up thr bur hlg hnm hsd het hde hrm herm hpb hrr hmth
    hco hcom hak hup hthr hbur]
  exact ⟨rfl, rfl⟩

/-- C6 witness: the method-responses theorem applied to `cfgEx`. -/
theorem gateway_post_method_responses_witness :
    ((ApiLambdaIntegationRestConstructInit "dev" "fnAlias"
        (some cfgEx)).fst.countP Event.isAddMethod = 1) ∧
    addMethodOf (ApiLambdaIntegationRestConstructInit "dev" "fnAlias"
        (some cfgEx)).fst =
      some (Event.addMethod (.str "POST") true
        [ { status_code := "200"
            response_models := [("application/json", .str "RespModel")] },
          { status_code := "400"
            response_models := [("application/json", .str "ErrModel")] } ]) :=
  gateway_post_method_responses cfgEx "dev" "fnAlias" "gwlogs"
    (.str "mygw") (.str "dev stage") (.str "regional") (.str "my gateway")
    (.str "RespModel") (.str "ErrModel") (.str "WHEN_NO_MATCH")
    (.str "things") (.str "POST") (.str "https://origin.example")
    (.str "POST") (.str "key1") (.str "plan1") (.num 10) (.num 20)
    rfl rfl rfl rfl rfl rfl rfl rfl rfl rfl rfl rfl rfl rfl rfl rfl

/-! ### C7 -/

/-- C7: on a valid bundle, the single log-group creation call fixes the
retention at one week (`LOG_RETENTION_PERIOD = RetentionDays.ONE_WEEK`) and
the removal policy at DESTROY (non-persistent, destroyed with the stack). -/
theorem api_log_group_retention_policy
    (gw : Config) (stage lambda_fn_alias lg : String)
    (nm sd et de rm erm pb rr mth co com ak up thr bur : CfgVal)
    (hlg : Config.find gw "gw_log_group_name" = some (.str lg))
    (hnm : Config.find gw "gw_name" = some nm)
    (hsd : Config.find gw "gw_stage_description" = some sd)
    (het : Config.find gw "gw_endpoint_type" = some et)
    (hde : Config.find gw "gw_description" = some de)
    (hrm : Config.find gw "gw_response_model_name" = some rm)
    (herm : Config.find gw "gw_error_response_model_name" = some erm)
    (hpb : Config.find gw "gw_passthrough_behavior" = some pb)
    (hrr : Config.find gw "gw_root_resource" = some rr)
    (hmth : Config.find gw "gw_method" = some mth)
    (hco : Config.find gw "gw_origins_cors" = some co)
    (hcom : Config.find gw "gw_origins_cors_method" = some com)
    (hak : Config.find gw "gw_api_key_name" = some ak)
    (hup : Config.find gw "gw_api_key_usage_plan_name" = some up)
    (hthr : Config.find gw "gw_api_key_usage_throttle" = some thr)
    (hbur : Config.find gw "gw_api_key_usage_burst" = some bur) :
    logGroupOf (ApiLambdaIntegationRestConstructInit stage lambda_fn_alias
        (some gw)).fst =
      some (Event.logGroup (.str lg) ("/aws/apigateway/" ++ lg)
        RetentionDays.ONE_WEEK RemovalPolicy.DESTROY) ∧
    LOG_RETENTION_PERIOD = RetentionDays.ONE_WEEK := by
  rw [init_eq_fullTrace gw stage lambda_fn_alias lg nm sd et de rm erm pb
    rr mth co com ak up thr bur hlg hnm hsd het hde hrm herm hpb hrr hmth
    hco hcom hak hup hthr hbur]
  exact ⟨rfl, rfl⟩

/-- C7 witness: the retention/removal theorem applied to `cfgEx`. -/
theorem api_log_group_retention_policy_witness :
    logGroupOf (ApiLambdaIntegationRestConstructInit "dev" "fnAlias"
        (some cfgEx)).fst =
      some (Event.logGroup (.str "gwlogs") ("/aws/apigateway/" ++ "gwlogs")
        RetentionDays.ONE_WEEK RemovalPolicy.DESTROY) ∧
    LOG_RETENTION_PERIOD = RetentionDays.ONE_WEEK :=
  api_log_group_retention_policy cfgEx "dev" "fnAlias" "gwlogs"
    (.str "mygw") (.str "dev stage") (.str "regional") (.str "my gateway")
    (.str "RespModel") (.str "ErrModel") (.str "WHEN_NO_MATCH")
    (.str "things") (.str "POST") (.str "https://origin.example")
    (.str "POST") (.str "key1") (.str "plan1") (.num 10) (.num 20)
    rfl rfl rfl rfl rfl rfl rfl rfl rfl rfl rfl rfl rfl rfl rfl rfl

/-! ### C8 -/

/-- C8: the `main_api` accessor is a pure projection returning exactly the
stored gateway (so reading it modifies nothing), and on a valid bundle the
stored gateway is exactly the gateway created during construction (the one
named by the bundle's `gw_name` at the gateway-creation call). -/
theorem main_api_accessor :
    (∀ c : ConstructResult, main_api c = c.apigw) ∧
    (∀ (gw : Config) (stage lambda_fn_alias lg : String)
       (nm sd et de rm erm pb rr mth co com ak up thr bur : CfgVal),
       Config.find gw "gw_log_group_name" = some (.str lg) →
       Config.find gw "gw_name" = some nm →
       Config.find gw "gw_stage_description" = some sd →
       Config.find gw "gw_endpoint_type" = some et →
       Config.find gw "gw_description" = some de →
       Config.find gw "gw_response_model_name" = some rm →
       Config.find gw "gw_error_response_model_name" = some erm →
       Config.find gw "gw_passthrough_behavior" = some pb →
       Config.find gw "gw_root_resource" = some rr →
       Config.find gw "gw_method" = some mth →
       Config.find gw "gw_origins_cors" = some co →
       Config.find gw "gw_origins_cors_method" = some com →
       Config.find gw "gw_api_key_name" = some ak →
       Config.find gw "gw_api_key_usage_plan_name" = some up →
       Config.find gw "gw_api_key_usage_throttle" = some thr →
       Config.find gw "gw_api_key_usage_burst" = some bur →
       (ApiLambdaIntegationRestConstructInit stage lambda_fn_alias
           (some gw)).snd =
         .ok { apigw := { rest_api_name := nm, url := restApiUrl nm } } ∧
       main_api { apigw := { rest_api_name := nm, url := restApiUrl nm } } =
         { rest_api_name := nm, url := restApiUrl nm } ∧
       restApiNameOf (ApiLambdaIntegationRestConstructInit stage
           lambda_fn_alias (some gw)).fst = some nm) := by
  refine ⟨fun c => rfl, ?_⟩
  intro gw stage lambda_fn_alias lg nm sd et de rm erm pb rr mth co com ak
    up thr bur hlg hnm hsd het hde hrm herm hpb hrr hmth hco hcom hak hup
    hthr hbur
  rw [init_eq_fullTrace gw stage lambda_fn_alias lg nm sd et de rm erm pb
    rr mth co com ak up thr bur hlg hnm hsd het hde hrm herm hpb hrr hmth
    hco hcom hak hup hthr hbur]
  exact ⟨rfl, rfl, rfl⟩

/-- C8 witness: the accessor theorem applied to `cfgEx`. -/
theorem main_api_accessor_witness :
    main_api { apigw := { rest_api_name := .str "mygw"
                          url := restApiUrl (.str "mygw") } } =
      { rest_api_name := CfgVal.str "mygw"
        url := restApiUrl (.str "mygw") } ∧
    (ApiLambdaIntegationRestConstructInit "dev" "fnAlias"
        (some cfgEx)).snd =
      .ok { apigw := { rest_api_name := .str "mygw"
                       url := restApiUrl (.str "mygw") } } :=
  ⟨(main_api_accessor.2 cfgEx "dev" "fnAlias" "gwlogs" (.str "mygw")
      (.str "dev stage") (.str "regional") (.str "my gateway")
      (.str "RespModel") (.str "ErrModel") (.str "WHEN_NO_MATCH")
      (.str "things") (.str "POST") (.str "https://origin.example")
      (.str "POST") (.str "key1") (.str "plan1") (.num 10) (.num 20)
      rfl rfl rfl rfl rfl rfl rfl rfl rfl rfl rfl rfl rfl rfl rfl rfl).2.1,
   (main_api_accessor.2 cfgEx "dev" "fnAlias" "gwlogs" (.str "mygw")
      (.str "dev stage") (.str "regional") (.str "my gateway")
      (.str "RespModel") (.str "ErrModel") (.str "WHEN_NO_MATCH")
      (.str "things") (.str "POST") (.str "https://origin.example")
      (.str "POST") (.str "key1") (.str "plan1") (.num 10) (.num 20)
      rfl rfl rfl rfl rfl rfl rfl rfl rfl rfl rfl rfl rfl rfl rfl rfl).1⟩

/-! ### C9 -/

/-- C9: on a valid bundle, exactly two `CfnOutput` calls are made:
`ApiGwUrl` carrying the created gateway's invocation URL, and
`ApiGWLogGroup` carrying the created log group's name. -/
theorem provisioning_outputs
    (gw : Config) (stage lambda_fn_alias lg : String)
    (nm sd et de rm erm pb rr mth co com ak up thr bur : CfgVal)
    (hlg : Config.find gw "gw_log_group_name" = some (.str lg))
    (hnm : Config.find gw "gw_name" = some nm)
    (hsd : Config.find gw "gw_stage_description" = some sd)
    (het : Config.find gw "gw_endpoint_type" = some et)
    (hde : Config.find gw "gw_description" = some de)
    (hrm : Config.find gw "gw_response_model_name" = some rm)
    (herm : Config.find gw "gw_error_response_model_name" = some erm)
    (hpb : Config.find gw "gw_passthrough_behavior" = some pb)
    (hrr : Config.find gw "gw_root_resource" = some rr)
    (hmth : Config.find gw "gw_method" = some mth)
    (hco : Config.find gw "gw_origins_cors" = some co)
    (hcom : Config.find gw "gw_origins_cors_method" = some com)
    (hak : Config.find gw "gw_api_key_name" = some ak)
    (hup : Config.find gw "gw_api_key_usage_plan_name" = some up)
    (hthr : Config.find gw "gw_api_key_usage_throttle" = some thr)
    (hbur : Config.find gw "gw_api_key_usage_burst" = some bur) :
    outputsOf (ApiLambdaIntegationRestConstructInit stage lambda_fn_alias
        (some gw)).fst =
      [("ApiGwUrl", restApiUrl nm),
       ("ApiGWLogGroup", "/aws/apigateway/" ++ lg)] ∧
    (ApiLambdaIntegationRestConstructInit stage lambda_fn_alias
        (some gw)).snd =
      .ok { apigw := { rest_api_name := nm, url := restApiUrl nm } } ∧
    logGroupNameOf (ApiLambdaIntegationRestConstructInit stage
        lambda_fn_alias (some gw)).fst = some ("/aws/apigateway/" ++ lg) := by
  rw [init_eq_fullTrace gw stage lambda_fn_alias lg nm sd et de rm erm pb
    rr mth co com ak up thr bur hlg hnm hsd het hde hrm herm hpb hrr hmth
    hco hcom hak hup hthr hbur]
  exact ⟨rfl, rfl, rfl⟩

/-- C9 witness: the outputs theorem applied to `cfgEx`. -/
theorem provisioning_outputs_witness :
    outputsOf (ApiLambdaIntegationRestConstructInit "dev" "fnAlias"
        (some cfgEx)).fst =
      [("ApiGwUrl", restApiUrl (.str "mygw")),
       ("ApiGWLogGroup", "/aws/apigateway/" ++ "gwlogs")] ∧
    (ApiLambdaIntegationRestConstructInit "dev" "fnAlias"
        (some cfgEx)).snd =
      .ok { apigw := { rest_api_name := .str "mygw"
                       url := restApiUrl (.str "mygw") } } ∧
    logGroupNameOf (ApiLambdaIntegationRestConstructInit "dev" "fnAlias"
        (some cfgEx)).fst = some ("/aws/apigateway/" ++ "gwlogs") :=
  provisioning_outputs cfgEx "dev" "fnAlias" "gwlogs"
    (.str "mygw") (.str "dev stage") (.str "regional") (.str "my gateway")
    (.str "RespModel") (.str "ErrModel") (.str "WHEN_NO_MATCH")
    (.str "things") (.str "POST") (.str "https://origin.example")
    (.str "POST") (.str "key1") (.str "plan1") (.num 10) (.num 20)
    rfl rfl rfl rfl rfl rfl rfl rfl rfl rfl rfl rfl rfl rfl rfl rfl

/-! ### C10 -/

/-- Prefixing with the non-empty literal changes every string. -/
theorem prefixed_ne (lg : String) : "/aws/apigateway/" ++ lg ≠ lg := by
  intro h
  have h2 := congrArg String.length h
  rw [String.length_append] at h2
  have h3 : ("/aws/apigateway/" : String).length = 16 := rfl
  rw [h3] at h2
  omega

/-- C10: on a valid bundle, the name passed at the log-group creation call
is not the `gw_log_group_name` value itself but that value prefixed with
`"/aws/apigateway/"`, and the `ApiGWLogGroup` output carries the prefixed
name. -/
theorem log_group_name_prefixed
    (gw : Config) (stage lambda_fn_alias lg : String)
    (nm sd et de rm erm pb rr mth co com ak up thr bur : CfgVal)
    (hlg : Config.find gw "gw_log_group_name" = some (.str lg))
    (hnm : Config.find gw "gw_name" = some nm)
    (hsd : Config.find gw "gw_stage_description" = some sd)
    (het : Config.find gw "gw_endpoint_type" = some et)
    (hde : Config.find gw "gw_description" = some de)
    (hrm : Config.find gw "gw_response_model_name" = some rm)
    (herm : Config.find gw "gw_error_response_model_name" = some erm)
    (hpb : Config.find gw "gw_passthrough_behavior" = some pb)
    (hrr : Config.find gw "gw_root_resource" = some rr)
    (hmth : Config.find gw "gw_method" = some mth)
    (hco : Config.find gw "gw_origins_cors" = some co)
    (hcom : Config.find gw "gw_origins_cors_method" = some com)
    (hak : Config.find gw "gw_api_key_name" = some ak)
    (hup : Config.find gw "gw_api_key_usage_plan_name" = some up)
    (hthr : Config.find gw "gw_api_key_usage_throttle" = some thr)
    (hbur : Config.find gw "gw_api_key_usage_burst" = some bur) :
    logGroupNameOf (ApiLambdaIntegationRestConstructInit stage
        lambda_fn_alias (some gw)).fst = some ("/aws/apigateway/" ++ lg) ∧
    "/aws/apigateway/" ++ lg ≠ lg ∧
    ("ApiGWLogGroup", "/aws/apigateway/" ++ lg) ∈
      outputsOf (ApiLambdaIntegationRestConstructInit stage lambda_fn_alias
        (some gw)).fst := by
  rw [init_eq_fullTrace gw stage lambda_fn_alias lg nm sd et de rm erm pb
    rr mth co com ak up thr bur hlg hnm hsd het hde hrm herm hpb hrr hmth
    hco hcom hak hup hthr hbur]
  refine ⟨rfl, prefixed_ne lg, ?_⟩
  simp [outputsOf, fullTrace]

/-- C10 witness: the prefixed-name theorem applied to `cfgEx`. -/
theorem log_group_name_prefixed_witness :
    logGroupNameOf (ApiLambdaIntegationRestConstructInit "dev" "fnAlias"
        (some cfgEx)).fst = some ("/aws/apigateway/" ++ "gwlogs") ∧
    "/aws/apigateway/" ++ "gwlogs" ≠ "gwlogs" ∧
    ("ApiGWLogGroup", "/aws/apigateway/" ++ "gwlogs") ∈
      outputsOf (ApiLambdaIntegationRestConstructInit "dev" "fnAlias"
        (some cfgEx)).fst :=
  log_group_name_prefixed cfgEx "dev" "fnAlias" "gwlogs"
    (.str "mygw") (.str "dev stage") (.str "regional") (.str "my gateway")
    (.str "RespModel") (.str "ErrModel") (.str "WHEN_NO_MATCH")
    (.str "things") (.str "POST") (.str "https://origin.example")
    (.str "POST") (.str "key1") (.str "plan1") (.num 10) (.num 20)
    rfl rfl rfl rfl rfl rfl rfl rfl rfl rfl rfl rfl rfl rfl rfl rfl

end ApiGw
